import Mathlib

/-!
Verification development for the Percepta narration core: a shallow
embedding, in Lean 4, of the decision/scoring/narration logic of
`detector.py` (`ObjectDetector`) and `formatter.py` (`ContextFormatter`),
together with theorems checking the documented behaviour of that logic.

Numeric values are embedded as exact rationals (`ℚ`); Python dicts become
association lists (`List (String × _)`); Python `datetime` instants become
rational timestamps measured in seconds; fallible values become `Option`.
String helpers mirror the Python string methods over ASCII character data.
-/

namespace Percepta

/-! ### Data model

A detection dict as built by `ObjectDetector.detect` and consumed by
`ContextFormatter`.  The `urgency` and `distance` keys are optional in the
Python dict (the formatter reads them with `.get('urgency', 0)` /
`.get('distance', 1.0)`), so they are `Option ℚ` here.  `class` is a Lean
keyword, so the field is named `cls`. -/
structure Detection where
  cls : String
  confidence : ℚ
  bbox : ℚ × ℚ × ℚ × ℚ
  priority : ℤ
  urgency : Option ℚ
  distance : Option ℚ
deriving DecidableEq,  Repr

/-! ### detector.py : ObjectDetector -/

/-- `ObjectDetector.PRIORITY_CLASSES` (detector.py lines 13-57). -/
def PRIORITY_CLASSES : List (String × ℤ) :=
  [("stairs", 5), ("escalator", 5),
   ("car", 4), ("truck", 4), ("bus", 4), ("train", 4),
   ("motorcycle", 4), ("bicycle", 4),
   ("person", 3), ("door", 3), ("stop sign", 4), ("traffic light", 4),
   ("chair", 2), ("couch", 2), ("bench", 2), ("table", 2),
   ("potted plant", 2), ("fire hydrant", 3),
   ("handbag", 1), ("backpack", 1), ("umbrella", 1), ("bottle", 1),
   ("cup", 1), ("cell phone", 1), ("laptop", 1), ("book", 1),
   ("dog", 3), ("cat", 2),
   ("wall", 1), ("fence", 2)]

/-- `ObjectDetector.DANGER_LEVEL` (detector.py lines 60-79). -/
def DANGER_LEVEL : List (String × ℚ) :=
  [("stairs", 10), ("escalator", 10),
   ("car", 8), ("truck", 8), ("bus", 8), ("train", 9),
   ("motorcycle", 7), ("bicycle", 6),
   ("person", 5), ("door", 4), ("fire hydrant", 6),
   ("stop sign", 7), ("traffic light", 7),
   ("dog", 6), ("chair", 3), ("table", 4), ("wall", 2),
   ("default", 3)]

/-- `ObjectDetector.estimate_distance` (detector.py lines 104-132):
`distance_score = 1.0 - (relative_area * 0.7 + (vertical_position * 0.3) * relative_area)`
clamped into `[0, 1]` by `max(0.0, min(1.0, distance_score))`. -/
def estimate_distance (bbox : ℚ × ℚ × ℚ × ℚ) (frame_height frame_width : ℚ) : ℚ :=
  let (_x, y, w, h) := bbox
  let bbox_area := w * h
  let frame_area := frame_height * frame_width
  let relative_area := bbox_area / frame_area
  let vertical_position := (y + h) / frame_height
  let distance_score := 1 - (relative_area * 0.7 + (vertical_position * 0.3) * relative_area)
  max 0 (min 1 distance_score)

/-- `ObjectDetector.calculate_urgency` (detector.py lines 134-163):
`urgency = danger * (1 - distance) * confidence`, with
`danger = DANGER_LEVEL.get(class_name, DANGER_LEVEL['default'])` and
`DANGER_LEVEL['default'] = 3`. -/
def calculate_urgency (detection : Detection) (frame_height frame_width : ℚ) : ℚ :=
  let class_name := detection.cls
  let bbox := detection.bbox
  let danger := (DANGER_LEVEL.lookup class_name).getD 3
  let distance := estimate_distance bbox frame_height frame_width
  danger * (1 - distance) * detection.confidence

/-- Python `round(q, 2)` on exact rationals: round to a multiple of 1/100,
ties going to the even integer of hundredths (banker's rounding, as Python's
`round` does on the exact value). -/
def roundHalfEven (q : ℚ) : ℤ :=
  if q - ⌊q⌋ = 1/2 then (if ⌊q⌋ % 2 = 0 then ⌊q⌋ else ⌊q⌋ + 1) else round q

/-- `round(x, 2)`, used by `ObjectDetector.detect` on confidence, urgency and
distance before storing them in the detection dict. -/
def round2 (q : ℚ) : ℚ := (roundHalfEven (q * 100) : ℚ) / 100

/-- The per-box annotation done inside `ObjectDetector.detect`
(detector.py lines 205-221): assign `priority`, compute and round `urgency`
and `distance`, attach them to the detection dict. -/
def annotateDetection (class_name : String) (confidence : ℚ)
    (bbox : ℚ × ℚ × ℚ × ℚ) (frame_height frame_width : ℚ) : Detection :=
  let priority := (PRIORITY_CLASSES.lookup class_name).getD 1
  let det : Detection :=
    { cls := class_name, confidence := round2 confidence, bbox := bbox,
      priority := priority, urgency := none, distance := none }
  let urgency := calculate_urgency det frame_height frame_width
  let det := { det with urgency := some (round2 urgency) }
  let distance := estimate_distance bbox frame_height frame_width
  { det with distance := some (round2 distance) }

/-! ### Python string helpers used by formatter.py -/

/-- Python `str.lower()` over the character data (ASCII case folding). -/
def pyLower (s : String) : String := String.mk (s.data.map Char.toLower)

/-- Python `str.upper()` over the character data (ASCII case folding). -/
def pyUpper (s : String) : String := String.mk (s.data.map Char.toUpper)

/-- Python `str.capitalize()`: first character upper-cased, the rest
lower-cased. -/
def pyCapitalize (s : String) : String :=
  match s.data with
  | [] => ""
  | c :: rest => String.mk (c.toUpper :: rest.map Char.toLower)

/-- Python `str.isupper()`: at least one cased character and no lower-case
character (cased = ASCII letter here). -/
def pyIsUpper (s : String) : Bool :=
  s.data.any (fun c => c.isUpper || c.isLower) && s.data.all (fun c => !c.isLower)

/-- Python `str.split()` with no argument: split on whitespace runs,
discarding empty pieces. -/
def pySplit (s : String) : List String :=
  ((s.data.splitOnP (fun c => c.isWhitespace)).map String.mk).filter (fun w => w ≠ "")

/-- Python `w.strip('.,!?')`: remove leading and trailing characters drawn
from `.,!?`. -/
def pyStripPunct (w : String) : String :=
  let p := fun c => c == '.' || c == ',' || c == '!' || c == '?'
  String.mk (((w.data.dropWhile p).reverse.dropWhile p).reverse)

/-- Substring test on character lists: does `needle` occur inside `hay`?
Models Python's `needle in hay` on strings. -/
def isSubAux (needle : List Char) : List Char → Bool
  | [] => needle.isEmpty
  | c :: rest => needle.isPrefixOf (c :: rest) || isSubAux needle rest

/-- Python `sub in hay` for strings (substring containment). -/
def strContains (hay sub : String) : Bool := isSubAux sub.data hay.data

/-- Python string comparison `x <= y`: lexicographic on code points,
computed on the character lists. -/
def pyStrLe (x y : String) : Bool := !(decide (y.data < x.data))

/-- Insert a string into an already sorted list (lexicographic `≤`). -/
def insertSorted (x : String) : List String → List String
  | [] => [x]
  | y :: ys => if pyStrLe x y then x :: y :: ys else y :: insertSorted x ys

/-- Python `sorted` on a list of strings (insertion sort; strings compare
lexicographically, and equal strings are identical so stability is moot). -/
def sortStrings : List String → List String
  | [] => []
  | x :: xs => insertSorted x (sortStrings xs)

/-! ### formatter.py : ContextFormatter -/

/-- `ContextFormatter.TRANSLATIONS['en']` (formatter.py lines 16-47). -/
def EN_TABLE : List (String × String) :=
  [("caution", "Caution"), ("warning", "Warning"), ("detected", "detected"),
   ("ahead", "ahead"), ("sign_reads", "Sign reads"), ("text_reads", "Text reads"),
   ("stairs", "Stairs"), ("door", "Door"), ("person", "Person"),
   ("car", "Vehicle"), ("truck", "Truck"), ("bus", "Bus"),
   ("bicycle", "Bicycle"), ("motorcycle", "Motorcycle"),
   ("chair", "chair"), ("couch", "couch"), ("bench", "bench"),
   ("stop sign", "stop sign"), ("traffic light", "traffic light"),
   ("fire hydrant", "fire hydrant"), ("handbag", "handbag"),
   ("backpack", "backpack"), ("umbrella", "umbrella"), ("bottle", "bottle"),
   ("cup", "cup"), ("knife", "knife"), ("cell phone", "cell phone"),
   ("laptop", "laptop"), ("dog", "dog"), ("cat", "cat")]

/-- `ContextFormatter.TRANSLATIONS['hi']` (formatter.py lines 48-79). -/
def HI_TABLE : List (String × String) :=
  [("caution", "सावधान"), ("warning", "चेतावनी"), ("detected", "का पता चला"),
   ("ahead", "सामने"), ("sign_reads", "साइन पर लिखा है"), ("text_reads", "टेक्स्ट पर लिखा है"),
   ("stairs", "सीढ़ियाँ"), ("door", "दरवाज़ा"), ("person", "व्यक्ति"),
   ("car", "गाड़ी"), ("truck", "ट्रक"), ("bus", "बस"),
   ("bicycle", "साइकिल"), ("motorcycle", "मोटरसाइकिल"),
   ("chair", "कुर्सी"), ("couch", "सोफा"), ("bench", "बेंच"),
   ("stop sign", "स्टॉप साइन"), ("traffic light", "ट्रैफ़िक लाइट"),
   ("fire hydrant", "फायर हाइड्रेंट"), ("handbag", "हैंडबैग"),
   ("backpack", "बैकपैक"), ("umbrella", "छाता"), ("bottle", "बोतल"),
   ("cup", "कप"), ("knife", "चाकू"), ("cell phone", "मोबाइल फोन"),
   ("laptop", "लैपटॉप"), ("dog", "कुत्ता"), ("cat", "बिल्ली")]

/-- `ContextFormatter.TRANSLATIONS` (formatter.py lines 15-80). -/
def TRANSLATIONS : List (String × List (String × String)) :=
  [("en", EN_TABLE), ("hi", HI_TABLE)]

/-- `ContextFormatter.translate` (formatter.py lines 92-95):
`self.TRANSLATIONS.get(language, self.TRANSLATIONS['en']).get(key, key)`. -/
def translate (key : String) (language : String) : String :=
  let translations := (TRANSLATIONS.lookup language).getD EN_TABLE
  (translations.lookup key).getD key

/-- The mutable state of a `ContextFormatter` instance:
`cooldown_seconds` and the `last_announcements` dict mapping a speech
signature to the timestamp (in seconds) it was last accepted. -/
structure FormatterState where
  cooldown_seconds : ℚ
  last_announcements : List (String × ℚ)
deriving DecidableEq, Repr

/-- `ContextFormatter.__init__` (formatter.py lines 82-90). -/
def initFormatter (cooldown_seconds : ℚ) : FormatterState :=
  { cooldown_seconds := cooldown_seconds, last_announcements := [] }

/-- `ContextFormatter._get_priority_objects` (formatter.py lines 132-156):
keep detections with `urgency >= 0.5 * top urgency` and `priority >= 2`,
truncated to the first 3; empty input yields empty output. -/
def getPriorityObjects (objects : List Detection) : List Detection :=
  match objects with
  | [] => []
  | most_urgent :: _ =>
    let most_urgent_score := most_urgent.urgency.getD 0
    let urgency_threshold := most_urgent_score * 0.5
    let critical_objects := objects.filter
      (fun obj => decide (urgency_threshold ≤ obj.urgency.getD 0) && decide (2 ≤ obj.priority))
    critical_objects.take 3

/-- The keyword list of `ContextFormatter._filter_important_texts`
(formatter.py lines 160-164). -/
def important_keywords : List String :=
  ["exit", "entrance", "danger", "warning", "caution",
   "stop", "stairs", "elevator", "restroom", "emergency",
   "no entry", "room", "floor", "open", "closed"]

/-- The `for text in texts` loop of
`ContextFormatter._filter_important_texts` (formatter.py lines 166-172):
append the text if it contains a keyword (case-insensitive), else if it is
all upper-case with length at most 20. -/
def importantLoop : List String → List String
  | [] => []
  | text :: rest =>
    let text_lower := pyLower text
    if important_keywords.any (fun keyword => strContains text_lower keyword) then
      text :: importantLoop rest
    else if pyIsUpper text && decide (text.length ≤ 20) then
      text :: importantLoop rest
    else
      importantLoop rest

/-- `ContextFormatter._filter_important_texts` (formatter.py lines 158-174):
the loop above followed by `important[:3]`. -/
def filterImportantTexts (texts : List String) : List String :=
  (importantLoop texts).take 3

/-- The per-element retention condition of the text-filter loop
(`_filter_important_texts` lines 169 and 171): keyword hit or short
all-caps. -/
def textImportantCond (text : String) : Bool :=
  important_keywords.any (fun keyword => strContains (pyLower text) keyword)
    || (pyIsUpper text && decide (text.length ≤ 20))

/-- The structured object summary produced by
`ContextFormatter._format_object`: exactly the `class`, `confidence` and
`priority` keys. -/
structure FormattedObject where
  cls : String
  confidence : ℚ
  priority : ℤ
deriving DecidableEq, Repr

/-- `ContextFormatter._format_object` (formatter.py lines 176-182). -/
def formatObject (obj : Detection) : FormattedObject :=
  { cls := obj.cls, confidence := obj.confidence, priority := obj.priority }

/-- `ContextFormatter._generate_speech` (formatter.py lines 184-295). -/
def generateSpeech (objects : List Detection) (texts : List String)
    (language : String) : Option String :=
  if objects.isEmpty && texts.isEmpty then none
  else
    let objectParts : List String :=
      match objects with
      | [] => []
      | most_urgent :: _ =>
        let urgency_score := most_urgent.urgency.getD 0
        let distance := most_urgent.distance.getD 1
        let is_critical := decide (5 ≤ urgency_score)
        let is_very_close := decide (distance < 0.3)
        let class_name := most_urgent.cls
        let primary : String :=
          if language = "hi" then
            if is_critical || is_very_close then
              if class_name = "stairs" then
                translate "caution" language ++ "! " ++ translate "caution" language
                  ++ "! " ++ translate "stairs" language ++ " "
                  ++ translate "detected" language ++ "!"
              else if class_name ∈ ["car", "truck", "bus", "train"] then
                let vehicle := translate class_name language
                translate "warning" language ++ "! " ++ vehicle ++ " "
                  ++ translate "detected" language ++ "!"
              else if class_name = "person" then
                translate "person" language ++ " " ++ translate "ahead" language
              else if class_name = "door" then
                translate "door" language ++ " " ++ translate "ahead" language
              else
                translate "caution" language ++ "! " ++ translate class_name language
                  ++ " " ++ translate "detected" language
            else
              let translated := translate class_name language
              if class_name ∈ ["person", "chair", "table"] then
                translated ++ " " ++ translate "detected" language
              else
                translated ++ " " ++ translate "ahead" language
          else
            if is_critical || is_very_close then
              if class_name = "stairs" then "CAUTION! STAIRS AHEAD!"
              else if class_name ∈ ["car", "truck", "bus", "train"] then
                "WARNING! " ++ pyUpper class_name ++ " DETECTED!"
              else if class_name = "person" then "Person directly ahead"
              else if class_name = "door" then "Door immediately ahead"
              else "Caution! " ++ class_name ++ " detected"
            else
              if class_name = "person" then "Person ahead"
              else if class_name = "door" then "Door ahead"
              else if class_name ∈ ["chair", "table", "bench"] then
                pyCapitalize class_name ++ " detected"
              else pyCapitalize class_name ++ " ahead"
        let others : List String :=
          if 1 < objects.length then
            let other_urgent := ((objects.drop 1).take 2).filter
              (fun obj => decide (urgency_score * 0.7 ≤ obj.urgency.getD 0))
            other_urgent.map (fun obj =>
              if language = "hi" then
                translate obj.cls language ++ " " ++ translate "detected" language
              else obj.cls ++ " detected")
          else []
        primary :: others
    let textParts : List String :=
      if texts.isEmpty then []
      else
        let important_signs := ["exit", "emergency", "danger", "warning", "caution", "stop"]
        let is_important := texts.any
          (fun text => important_signs.any (fun keyword => strContains (pyLower text) keyword))
        let text_intro :=
          if language = "hi" then
            translate (if is_important then "sign_reads" else "text_reads") language
          else
            if is_important then "Sign reads" else "Text reads"
        let texts_to_announce := texts.take 2
        if texts_to_announce.length = 1 then
          [text_intro ++ ": " ++ texts_to_announce.headI]
        else
          [text_intro ++ ": " ++ String.intercalate ", " texts_to_announce]
    let speech_parts := objectParts ++ textParts
    if speech_parts.isEmpty then none
    else some (String.intercalate ". " speech_parts ++ ".")

/-- `ContextFormatter._create_signature` (formatter.py lines 332-339):
lower-case, split on whitespace, drop stop words, strip `.,!?`, sort the
first five remaining tokens, join with spaces. -/
def createSignature (speech : String) : String :=
  let words := pySplit (pyLower speech)
  let stop_words : List String := ["detected", "text", "reads", "and", "the", "a", "an"]
  let key_words := (words.filter (fun w => !(stop_words.contains w))).map pyStripPunct
  String.intercalate " " (sortStrings (key_words.take 5))

/-- Python dict assignment `d[k] = v` on an association list: overwrite the
entry in place if the key is present, append otherwise. -/
def dictInsert (l : List (String × ℚ)) (k : String) (v : ℚ) : List (String × ℚ) :=
  match l.lookup k with
  | none => l ++ [(k, v)]
  | some _ => l.map (fun p => if p.1 = k then (k, v) else p)

/-- `ContextFormatter._cleanup_old_announcements` (formatter.py lines
341-351): delete every entry whose timestamp is before
`current_time - 2 * cooldown_seconds`. -/
def cleanupOldAnnouncements (st : FormatterState) (current_time : ℚ) : FormatterState :=
  let cutoff_time := current_time - st.cooldown_seconds * 2
  { st with last_announcements :=
      st.last_announcements.filter (fun p => !(decide (p.2 < cutoff_time))) }

/-- `ContextFormatter._check_cooldown` (formatter.py lines 297-330), with
`datetime.now()` passed in as `current_time`.  Returns the admit flag and
the updated state. -/
def checkCooldown (st : FormatterState) (speech : Option String)
    (current_time : ℚ) : Bool × FormatterState :=
  match speech with
  | none => (false, st)
  | some sp =>
    let signature := createSignature sp
    let inCooldown :=
      match st.last_announcements.lookup signature with
      | some last_time => decide (current_time - last_time < st.cooldown_seconds)
      | none => false
    if inCooldown then (false, st)
    else
      let updated := dictInsert st.last_announcements signature current_time
      let st1 := { st with last_announcements := updated }
      (true, cleanupOldAnnouncements st1 current_time)

/-- The result dict of `ContextFormatter.format_context`. -/
structure ContextResult where
  objects : List FormattedObject
  text : List String
  speech : Option String
deriving DecidableEq, Repr

/-- `ContextFormatter.format_context` (formatter.py lines 97-130), with
`datetime.now()` passed in as `now`.  Returns the result dict and the
updated formatter state. -/
def formatContext (st : FormatterState) (objects : List Detection)
    (texts : List String) (language : String) (now : ℚ) :
    ContextResult × FormatterState :=
  let priority_objects := getPriorityObjects objects
  let important_texts := filterImportantTexts texts
  let speech0 := generateSpeech priority_objects important_texts language
  let checked := checkCooldown st speech0 now
  let speech := if checked.1 then speech0 else none
  ({ objects := (priority_objects.take 5).map formatObject,
     text := important_texts,
     speech := speech }, checked.2)

/-! ### Helper lemmas -/

/-- A key absent from an association list is absent from any filtered
version of it. -/
theorem lookup_filter_none {l : List (String × ℚ)} {k : String} {p : String × ℚ → Bool}
    (h : l.lookup k = none) : (l.filter p).lookup k = none := by
  rw [List.lookup_eq_none_iff] at h ⊢
  exact fun q hq => h q (List.mem_filter.mp hq).1

/-- Every entry of the `DANGER_LEVEL` table is positive, so the danger
weight of every class (with the `default` fallback 3) is positive. -/
theorem danger_level_pos (cls : String) : 0 < (DANGER_LEVEL.lookup cls).getD 3 := by
  rcases h : DANGER_LEVEL.lookup cls with _ | v
  · norm_num
  · have hmem : (cls, v) ∈ DANGER_LEVEL := by
      rcases List.lookup_eq_some_iff.mp h with ⟨l₁, l₂, heq, -⟩
      rw [heq]; simp
    have hall : ∀ q ∈ DANGER_LEVEL, 0 < q.2 := by decide
    simpa using hall _ hmem

/-- The two-branch `if/elif` loop of `_filter_important_texts` retains
exactly the elements satisfying `textImportantCond`. -/
theorem importantLoop_eq_filter (ts : List String) :
    importantLoop ts = ts.filter textImportantCond := by
  induction ts with
  | nil => rfl
  | cons t rest ih =>
    by_cases h1 : important_keywords.any (fun keyword => strContains (pyLower t) keyword)
    · simp [importantLoop, textImportantCond, h1, ih]
    · by_cases h2 : pyIsUpper t && decide (t.length ≤ 20)
      · simp [importantLoop, textImportantCond, h1, h2, ih]
      · simp [importantLoop, textImportantCond, h1, h2, ih]

/-! ### Claims -/

/-- Claim C1: for every input list of annotated detections sorted descending
by urgency, `_get_priority_objects` returns a subsequence of the input of
length at most 3, containing only elements whose priority is ≥ 2 and whose
urgency is ≥ 0.5 times the first element's urgency, in the same relative
order as the input; an empty input yields an empty output. -/
theorem get_priority_objects_spec (objects : List Detection)
    (hsorted : objects.Sorted (fun a b => b.urgency.getD 0 ≤ a.urgency.getD 0)) :
    (getPriorityObjects objects).length ≤ 3
    ∧ (getPriorityObjects objects).Sublist objects
    ∧ (∀ o ∈ getPriorityObjects objects, 2 ≤ o.priority)
    ∧ (∀ hd tl, objects = hd :: tl →
        ∀ o ∈ getPriorityObjects objects, hd.urgency.getD 0 * 0.5 ≤ o.urgency.getD 0)
    ∧ (objects = [] → getPriorityObjects objects = []) := by
  cases objects with
  | nil => simp [getPriorityObjects]
  | cons hd tl =>
    refine ⟨?_, ?_, ?_, ?_, ?_⟩
    · simp only [getPriorityObjects, List.length_take]
      exact min_le_left _ _
    · exact (List.take_sublist _ _).trans (List.filter_sublist _)
    · intro o ho
      have hmem := List.mem_of_mem_take ho
      simp only [List.mem_filter, Bool.and_eq_true, decide_eq_true_eq] at hmem
      exact hmem.2.2
    · intro hd' tl' heq o ho
      obtain ⟨rfl, rfl⟩ : hd' = hd ∧ tl' = tl := by
        injection heq with h1 h2; exact ⟨h1.symm, h2.symm⟩
      have hmem := List.mem_of_mem_take ho
      simp only [List.mem_filter, Bool.and_eq_true, decide_eq_true_eq] at hmem
      linarith [hmem.2.1]
    · intro h; cases h

/-- Witness for C1 at a concrete two-element urgency-sorted input. -/
theorem get_priority_objects_spec_witness :
    ([⟨"stairs", 0.92, (0, 50, 80, 50), 5, some 3.68, some 0.6⟩,
      ⟨"person", 0.8, (0, 0, 10, 10), 3, some 2, some 0.5⟩] : List Detection).Sorted
        (fun a b => b.urgency.getD 0 ≤ a.urgency.getD 0)
    ∧ (getPriorityObjects
        [⟨"stairs", 0.92, (0, 50, 80, 50), 5, some 3.68, some 0.6⟩,
         ⟨"person", 0.8, (0, 0, 10, 10), 3, some 2, some 0.5⟩]).length ≤ 3 :=
  ⟨by simp [List.sorted_cons]; norm_num,
   (get_priority_objects_spec _ (by simp [List.sorted_cons]; norm_num)).1⟩

/-- Claim C7: `estimate_distance` always returns a value in `[0, 1]`, and a
bounding box covering the whole frame with its bottom edge at the bottom
yields distance exactly 0. -/
theorem estimate_distance_spec :
    (∀ x y w h fh fw : ℚ, 0 ≤ x → 0 ≤ y → 0 ≤ w → 0 ≤ h → 0 < fh → 0 < fw →
      0 ≤ estimate_distance (x, y, w, h) fh fw ∧ estimate_distance (x, y, w, h) fh fw ≤ 1)
    ∧ (∀ fh fw : ℚ, 0 < fh → 0 < fw → estimate_distance (0, 0, fw, fh) fh fw = 0) := by
  constructor
  · intro x y w h fh fw _ _ _ _ _ _
    refine ⟨le_max_left _ _, ?_⟩
    exact max_le (by norm_num) (min_le_left _ _)
  · intro fh fw hfh hfw
    simp only [estimate_distance]
    have h1 : fw * fh / (fh * fw) = 1 := by
      rw [mul_comm fh fw]; exact div_self (by positivity)
    have h2 : (0 + fh) / fh = 1 := by
      rw [zero_add]; exact div_self (ne_of_gt hfh)
    rw [h1, h2]
    norm_num

/-- Witness for C7 at a concrete bounding box and frame. -/
theorem estimate_distance_spec_witness :
    (0 ≤ estimate_distance (0, 50, 80, 50) 100 100
      ∧ estimate_distance (0, 50, 80, 50) 100 100 ≤ 1)
    ∧ estimate_distance (0, 0, 100, 100) 100 100 = 0 :=
  ⟨estimate_distance_spec.1 0 50 80 50 100 100 (by norm_num) (by norm_num) (by norm_num)
      (by norm_num) (by norm_num) (by norm_num),
   estimate_distance_spec.2 100 100 (by norm_num) (by norm_num)⟩

/-- Claim C8: `_filter_important_texts` returns at most 3 strings, a
subsequence of the input in input order, and (before truncation to 3) a
string is retained iff it contains a safety keyword case-insensitively or
is entirely upper-case with length at most 20. -/
theorem filter_important_texts_spec (ts : List String) :
    (filterImportantTexts ts).length ≤ 3
    ∧ (filterImportantTexts ts).Sublist ts
    ∧ (∀ t, t ∈ importantLoop ts ↔ t ∈ ts ∧
        (important_keywords.any (fun keyword => strContains (pyLower t) keyword)
          || (pyIsUpper t && decide (t.length ≤ 20))) = true) := by
  refine ⟨?_, ?_, ?_⟩
  · simp only [filterImportantTexts, List.length_take]
    exact min_le_left _ _
  · exact (List.take_sublist _ _).trans
      (importantLoop_eq_filter ts ▸ List.filter_sublist _)
  · intro t
    rw [importantLoop_eq_filter, List.mem_filter, textImportantCond]

/-- Claim C9: `translate` is total, falls back to the English table when the
language code is unknown, and returns the key itself when the key is absent
from the selected table. -/
theorem translate_total_fallback (key language : String) :
    (TRANSLATIONS.lookup language = none → translate key language = translate key "en")
    ∧ (((TRANSLATIONS.lookup language).getD EN_TABLE).lookup key = none →
        translate key language = key) := by
  constructor
  · intro h
    have hen : TRANSLATIONS.lookup "en" = some EN_TABLE := rfl
    simp [translate, h, hen]
  · intro h
    have hdef : translate key language
        = (((TRANSLATIONS.lookup language).getD EN_TABLE).lookup key).getD key := rfl
    rw [hdef, h]
    rfl

/-- Witness for C9: language `"fr"` is not in the table and key `"zzz"` is
not in the English table. -/
theorem translate_total_fallback_witness :
    translate "zzz" "fr" = translate "zzz" "en" ∧ translate "zzz" "fr" = "zzz" :=
  ⟨(translate_total_fallback "zzz" "fr").1 (by decide),
   (translate_total_fallback "zzz" "fr").2 (by decide)⟩

/-- Claim C10: every element of the `objects` payload of `format_context` is
exactly the `class`/`confidence`/`priority` record of the corresponding
prioritized detection; no other annotation appears (the `FormattedObject`
record has no other field). -/
theorem format_object_payload (st : FormatterState) (objects : List Detection)
    (texts : List String) (language : String) (now : ℚ) :
    ((formatContext st objects texts language now).1).objects
      = ((getPriorityObjects objects).take 5).map
          (fun o => ({ cls := o.cls, confidence := o.confidence, priority := o.priority } :
            FormattedObject))
    ∧ (∀ o : Detection, formatObject o =
        { cls := o.cls, confidence := o.confidence, priority := o.priority }) :=
  ⟨rfl, fun _ => rfl⟩

/-- Counterexample to C3 as stated: a zero-area bounding box gives distance
exactly 1, so the urgency is 0 for every confidence — raising the
confidence from 0.5 to 0.9 does not strictly increase the urgency. -/
theorem urgency_not_strict_in_confidence :
    (⟨"stairs", 0.5, (0, 0, 0, 0), 5, none, none⟩ : Detection).confidence
      < (⟨"stairs", 0.9, (0, 0, 0, 0), 5, none, none⟩ : Detection).confidence
    ∧ calculate_urgency ⟨"stairs", 0.5, (0, 0, 0, 0), 5, none, none⟩ 100 100
      = calculate_urgency ⟨"stairs", 0.9, (0, 0, 0, 0), 5, none, none⟩ 100 100 := by
  constructor
  · norm_num
  · norm_num [calculate_urgency, estimate_distance, min_def, max_def]

/-- Claim C3 (amended): for a fixed class, urgency strictly increases as
confidence increases provided the distance is < 1, and strictly increases
as distance decreases provided the confidence is positive. -/
theorem urgency_strict_monotone :
    (∀ (d : Detection) (fh fw c1 c2 : ℚ),
        estimate_distance d.bbox fh fw < 1 → c1 < c2 →
        calculate_urgency { d with confidence := c1 } fh fw
          < calculate_urgency { d with confidence := c2 } fh fw)
    ∧ (∀ (d : Detection) (fh fw : ℚ) (b1 b2 : ℚ × ℚ × ℚ × ℚ),
        0 < d.confidence →
        estimate_distance b1 fh fw < estimate_distance b2 fh fw →
        calculate_urgency { d with bbox := b2 } fh fw
          < calculate_urgency { d with bbox := b1 } fh fw) := by
  constructor
  · intro d fh fw c1 c2 hdist hc
    simp only [calculate_urgency]
    have hdanger := danger_level_pos d.cls
    have hk : 0 < (DANGER_LEVEL.lookup d.cls).getD 3 * (1 - estimate_distance d.bbox fh fw) :=
      mul_pos hdanger (by linarith)
    exact mul_lt_mul_of_pos_left hc hk
  · intro d fh fw b1 b2 hconf hdist
    simp only [calculate_urgency]
    have hdanger := danger_level_pos d.cls
    nlinarith [mul_pos hdanger hconf]

/-- Witness for C3 (amended) at concrete detections and frames. -/
theorem urgency_strict_monotone_witness :
    calculate_urgency ⟨"stairs", 0.5, (0, 50, 80, 50), 5, none, none⟩ 100 100
      < calculate_urgency ⟨"stairs", 0.9, (0, 50, 80, 50), 5, none, none⟩ 100 100
    ∧ calculate_urgency ⟨"stairs", 0.92, (0, 0, 10, 10), 5, none, none⟩ 100 100
      < calculate_urgency ⟨"stairs", 0.92, (0, 50, 80, 50), 5, none, none⟩ 100 100 := by
  constructor
  · exact urgency_strict_monotone.1 ⟨"stairs", 0.5, (0, 50, 80, 50), 5, none, none⟩
      100 100 0.5 0.9 (by norm_num [estimate_distance, min_def, max_def]) (by norm_num)
  · exact urgency_strict_monotone.2 ⟨"stairs", 0.92, (0, 0, 10, 10), 5, none, none⟩
      100 100 (0, 50, 80, 50) (0, 0, 10, 10) (by norm_num)
      (by norm_num [estimate_distance, min_def, max_def])

/-- On the accept path (signature not recorded), `_check_cooldown` returns
true and the state with the new signature appended and stale entries
filtered out. -/
theorem checkCooldown_not_recorded (st : FormatterState) (sp : String) (t : ℚ)
    (h : st.last_announcements.lookup (createSignature sp) = none) :
    checkCooldown st (some sp) t =
      (true, ⟨st.cooldown_seconds,
        (st.last_announcements ++ [(createSignature sp, t)]).filter
          (fun p => !(decide (p.2 < t - st.cooldown_seconds * 2)))⟩) := by
  simp only [checkCooldown, dictInsert, cleanupOldAnnouncements, h]
  rfl

/-- Claim C2: with cooldown window C and a sentence whose signature is not
yet recorded, the first admit call returns true and records the signature
at the current time; a second call with the same sentence less than C
seconds later returns false without changing the state, and a second call
more than C seconds later returns true. -/
theorem cooldown_gate_spec (st : FormatterState) (sp : String) (t1 t2 : ℚ)
    (hC : 0 < st.cooldown_seconds)
    (hnew : st.last_announcements.lookup (createSignature sp) = none) :
    (checkCooldown st (some sp) t1).1 = true
    ∧ ((checkCooldown st (some sp) t1).2).last_announcements.lookup (createSignature sp)
        = some t1
    ∧ (t2 - t1 < st.cooldown_seconds →
        checkCooldown ((checkCooldown st (some sp) t1).2) (some sp) t2
          = (false, (checkCooldown st (some sp) t1).2))
    ∧ (st.cooldown_seconds < t2 - t1 →
        (checkCooldown ((checkCooldown st (some sp) t1).2) (some sp) t2).1 = true) := by
  have hacc := checkCooldown_not_recorded st sp t1 hnew
  set r1 := checkCooldown st (some sp) t1 with hr1
  have hlook : (r1.2).last_announcements.lookup (createSignature sp) = some t1 := by
    rw [hacc]
    show ((st.last_announcements ++ [(createSignature sp, t1)]).filter _).lookup _ = _
    rw [List.filter_append, List.lookup_append, lookup_filter_none hnew, Option.none_or]
    have hp : (!(decide (t1 < t1 - st.cooldown_seconds * 2))) = true := by
      simp only [Bool.not_eq_true', decide_eq_false_iff_not, not_lt]
      linarith
    simp [List.filter, hp]
  have hcd : (r1.2).cooldown_seconds = st.cooldown_seconds := by
    rw [hacc]
  refine ⟨by rw [hacc], hlook, ?_, ?_⟩
  · intro hlt
    have hcond : (decide (t2 - t1 < st.cooldown_seconds)) = true := decide_eq_true hlt
    simp only [checkCooldown, hlook, hcd, hcond]
    rfl
  · intro hgt
    have hcond : (decide (t2 - t1 < st.cooldown_seconds)) = false := by
      simp only [decide_eq_false_iff_not, not_lt]
      linarith
    simp only [checkCooldown, hlook, hcd, hcond]
    rfl

/-- Witness for C2: cooldown 5 s, fresh state, sentence "Person ahead."
first admitted at t=0; a repeat at t=1 is rejected without a state change,
and a repeat at t=6 would be admitted. -/
theorem cooldown_gate_spec_witness :
    (checkCooldown (initFormatter 5) (some "Person ahead.") 0).1 = true
    ∧ ((checkCooldown (initFormatter 5) (some "Person ahead.") 0).2).last_announcements.lookup
        (createSignature "Person ahead.") = some 0
    ∧ checkCooldown ((checkCooldown (initFormatter 5) (some "Person ahead.") 0).2)
        (some "Person ahead.") 1
        = (false, (checkCooldown (initFormatter 5) (some "Person ahead.") 0).2)
    ∧ (checkCooldown ((checkCooldown (initFormatter 5) (some "Person ahead.") 0).2)
        (some "Person ahead.") 6).1 = true := by
  have h := cooldown_gate_spec (initFormatter 5) "Person ahead." 0 1
    (by norm_num [initFormatter]) (by decide)
  have h6 := cooldown_gate_spec (initFormatter 5) "Person ahead." 0 6
    (by norm_num [initFormatter]) (by decide)
  exact ⟨h.1, h.2.1, h.2.2.1 (by norm_num [initFormatter]), h6.2.2.2 (by norm_num [initFormatter])⟩

/-- Counterexample to C5 as stated: an admit call rejected by the cooldown
returns early and purges nothing — a signature last seen at time −100,
far older than 2×5 seconds before now = 1, survives the call. -/
theorem cooldown_no_purge_on_reject :
    checkCooldown ⟨5, [("old", -100), ("ahead person", 0)]⟩ (some "Person ahead.") 1
      = (false, ⟨5, [("old", -100), ("ahead person", 0)]⟩)
    ∧ ((-100 : ℚ) < 1 - 5 * 2) := by
  constructor
  · have hl : List.lookup (createSignature "Person ahead.")
        ([("old", (-100 : ℚ)), ("ahead person", 0)]) = some 0 := by decide
    have hcond : decide ((1 : ℚ) - 0 < 5) = true := decide_eq_true (by norm_num)
    simp only [checkCooldown, hl, hcond]
    simp
  · norm_num

/-- Claim C5 (amended): on every admit call that accepts (returns true),
every signature older than twice the cooldown window before the current
time is purged; an admit call that rejects (returns false) leaves the
cooldown record unchanged. -/
theorem cooldown_purge_on_accept (st : FormatterState) (speech : Option String) (now : ℚ) :
    ((checkCooldown st speech now).1 = true →
      ∀ p ∈ ((checkCooldown st speech now).2).last_announcements,
        ¬(p.2 < now - st.cooldown_seconds * 2))
    ∧ ((checkCooldown st speech now).1 = false → (checkCooldown st speech now).2 = st) := by
  cases speech with
  | none => exact ⟨fun h => by simp [checkCooldown] at h, fun _ => rfl⟩
  | some sp =>
    rcases hl : st.last_announcements.lookup (createSignature sp) with _ | last_time
    · have hacc := checkCooldown_not_recorded st sp now hl
      rw [hacc]
      refine ⟨fun _ p hp => ?_, fun hfalse => by simp at hfalse⟩
      have hkeep := (List.mem_filter.mp hp).2
      simpa using hkeep
    · by_cases ht : now - last_time < st.cooldown_seconds
      · have hrej : checkCooldown st (some sp) now = (false, st) := by
          simp only [checkCooldown, hl, decide_eq_true ht]
          simp
        rw [hrej]
        exact ⟨fun h => by simp at h, fun _ => rfl⟩
      · have hcond : decide (now - last_time < st.cooldown_seconds) = false := by
          simpa using ht
        have hacc : checkCooldown st (some sp) now
            = (true, cleanupOldAnnouncements
                ⟨st.cooldown_seconds,
                 dictInsert st.last_announcements (createSignature sp) now⟩ now) := by
          simp only [checkCooldown, hl, hcond]
          simp
        rw [hacc]
        refine ⟨fun _ p hp => ?_, fun hfalse => by simp at hfalse⟩
        simp only [cleanupOldAnnouncements] at hp
        have hkeep := (List.mem_filter.mp hp).2
        simpa using hkeep

/-- Witness for C5 (amended): an accepting call at time 1 with cooldown 5
purges the signature recorded at time −100, and a rejecting call leaves
the state unchanged. -/
theorem cooldown_purge_on_accept_witness :
    (∀ p ∈ ((checkCooldown (⟨5, [("old", -100)]⟩ : FormatterState)
        (some "Person ahead.") 1).2).last_announcements,
      ¬(p.2 < 1 - (5 : ℚ) * 2))
    ∧ (checkCooldown (⟨5, [("ahead person", 0)]⟩ : FormatterState)
        (some "Person ahead.") 1).2 = ⟨5, [("ahead person", 0)]⟩ := by
  constructor
  · refine (cooldown_purge_on_accept ⟨5, [("old", -100)]⟩ (some "Person ahead.") 1).1 ?_
    have hl : List.lookup (createSignature "Person ahead.")
        ([("old", (-100 : ℚ))]) = none := by decide
    rw [checkCooldown_not_recorded _ _ _ hl]
  · refine (cooldown_purge_on_accept ⟨5, [("ahead person", 0)]⟩ (some "Person ahead.") 1).2 ?_
    have hl : List.lookup (createSignature "Person ahead.")
        ([("ahead person", (0 : ℚ))]) = some 0 := by decide
    have hcond : decide ((1 : ℚ) - 0 < 5) = true := decide_eq_true (by norm_num)
    simp only [checkCooldown, hl, hcond]
    simp

/-- Claim C6: the `objects` and `text` fields of the `format_context`
result are computed from the prioritized detections and filtered texts
independently of the cooldown outcome, and when the cooldown check rejects
the generated narration the `speech` field is null. -/
theorem format_context_suppression (st : FormatterState) (objects : List Detection)
    (texts : List String) (language : String) (now : ℚ) :
    ((formatContext st objects texts language now).1).objects
      = ((getPriorityObjects objects).take 5).map formatObject
    ∧ ((formatContext st objects texts language now).1).text = filterImportantTexts texts
    ∧ ((checkCooldown st (generateSpeech (getPriorityObjects objects)
          (filterImportantTexts texts) language) now).1 = false →
        ((formatContext st objects texts language now).1).speech = none) := by
  refine ⟨rfl, rfl, fun h => ?_⟩
  simp only [formatContext, h]
  simp

/-- Witness for C6: with "Person ahead." in cooldown (recorded at t=0,
window 5 s, call at t=1), speech is suppressed to null while the objects
payload stays populated. -/
theorem format_context_suppression_witness :
    ((formatContext ⟨5, [("ahead person", 0)]⟩
        [⟨"person", 0.87, (0, 0, 10, 10), 3, some 4, some 0.5⟩] [] "en" 1).1).speech = none
    ∧ ((formatContext ⟨5, [("ahead person", 0)]⟩
        [⟨"person", 0.87, (0, 0, 10, 10), 3, some 4, some 0.5⟩] [] "en" 1).1).objects
      = [⟨"person", 0.87, 3⟩] := by
  have hprio : getPriorityObjects [⟨"person", 0.87, (0, 0, 10, 10), 3, some 4, some 0.5⟩]
      = [⟨"person", 0.87, (0, 0, 10, 10), 3, some 4, some 0.5⟩] := by
    norm_num [getPriorityObjects, List.filter]
  have hspeech : generateSpeech [⟨"person", 0.87, (0, 0, 10, 10), 3, some 4, some 0.5⟩] [] "en"
      = some "Person ahead." := by
    norm_num [generateSpeech]
    decide
  have hl : List.lookup (createSignature "Person ahead.")
      ([("ahead person", (0 : ℚ))]) = some 0 := by decide
  have hcond : decide ((1 : ℚ) - 0 < 5) = true := decide_eq_true (by norm_num)
  have hrej : (checkCooldown ⟨5, [("ahead person", 0)]⟩
      (generateSpeech (getPriorityObjects
        [⟨"person", 0.87, (0, 0, 10, 10), 3, some 4, some 0.5⟩])
        (filterImportantTexts []) "en") 1).1 = false := by
    rw [hprio, filterImportantTexts, importantLoop, List.take_nil, hspeech]
    simp only [checkCooldown, hl, hcond]
    simp
  have h := format_context_suppression ⟨5, [("ahead person", 0)]⟩
    [⟨"person", 0.87, (0, 0, 10, 10), 3, some 4, some 0.5⟩] [] "en" 1
  refine ⟨h.2.2 hrej, ?_⟩
  rw [h.1, hprio]
  rfl

/-- The detection of end-to-end scenario A, as the detector pipeline
annotates it: class stairs, confidence 0.92, bounding box (0, 50, 80, 50)
in a 100×100 frame (40% of the frame area, bottom edge at the bottom).
Distance comes out 0.6 and urgency 10 · 0.4 · 0.92 = 3.68. -/
theorem scenario_a_detection :
    annotateDetection "stairs" 0.92 (0, 50, 80, 50) 100 100
      = ⟨"stairs", 23/25, (0, 50, 80, 50), 5, some (92/25), some (3/5)⟩ := by
  have hp : PRIORITY_CLASSES.lookup "stairs" = some 5 := by decide
  have hdl : DANGER_LEVEL.lookup "stairs" = some 10 := by decide
  norm_num [annotateDetection, calculate_urgency, estimate_distance, hp, hdl,
    round2, roundHalfEven, round_eq, min_def, max_def]

/-- Counterexample to C4 as stated: in scenario A the computed urgency is
3.68 < 5.0, so the `is_critical` branch is not taken and the narration is
the neutral "Stairs ahead.", not the alarm-register stairs warning. -/
theorem scenario_a_not_critical :
    (annotateDetection "stairs" 0.92 (0, 50, 80, 50) 100 100).urgency.getD 0 < 5
    ∧ generateSpeech [annotateDetection "stairs" 0.92 (0, 50, 80, 50) 100 100] [] "en"
        = some "Stairs ahead."
    ∧ strContains "Stairs ahead." "CAUTION" = false := by
  rw [scenario_a_detection]
  refine ⟨by norm_num, ?_, by decide⟩
  norm_num [generateSpeech]
  decide

/-- Claim C4 (amended): in end-to-end scenario A the urgency is 3.68 < 5.0,
the `is_critical` branch is not taken, and the pipeline produces the
neutral announcement "Stairs ahead." with the stairs object in the
payload. -/
theorem scenario_a_neutral :
    ((formatContext (initFormatter 5)
        [annotateDetection "stairs" 0.92 (0, 50, 80, 50) 100 100] [] "en" 0).1)
      = ⟨[⟨"stairs", 23/25, 5⟩], [], some "Stairs ahead."⟩
    ∧ (annotateDetection "stairs" 0.92 (0, 50, 80, 50) 100 100).urgency.getD 0 < 5 := by
  rw [scenario_a_detection]
  constructor
  · have hprio : getPriorityObjects
        [(⟨"stairs", 23/25, (0, 50, 80, 50), 5, some (92/25), some (3/5)⟩ : Detection)]
        = [⟨"stairs", 23/25, (0, 50, 80, 50), 5, some (92/25), some (3/5)⟩] := by
      norm_num [getPriorityObjects, List.filter]
    have hspeech : generateSpeech
        [(⟨"stairs", 23/25, (0, 50, 80, 50), 5, some (92/25), some (3/5)⟩ : Detection)] [] "en"
        = some "Stairs ahead." := by
      norm_num [generateSpeech]
      decide
    have hcool : (checkCooldown (initFormatter 5) (some "Stairs ahead.") 0).1 = true := by
      rw [checkCooldown_not_recorded (initFormatter 5) "Stairs ahead." 0 rfl]
    simp only [formatContext, hprio, filterImportantTexts, importantLoop, List.take_nil,
      hspeech, hcool]
    rfl
  · norm_num

end Percepta
